import Mathlib

set_option linter.unusedVariables false

/-!
Shallow embedding of the media-acquisition and segment-extraction pipeline of
this repository: `src/download_cutter.py` (time parsing, duration probing,
segment validation and cutting) and `src/download_and_cut.py` (URL
normalization, two-strategy download, ffmpeg cutting, and the per-row
orchestration loop).  External tools (yt-dlp, requests, ffmpeg, ffprobe) and
the filesystem are modelled by explicit environment values and a list-of-paths
filesystem; floats are modelled by rationals.
-/

namespace SLT

/-! ## String helpers (structurally recursive, over the character list) -/

/-- ASCII whitespace as stripped by Python `str.strip()`. -/
def isSpaceChar (c : Char) : Bool :=
  c == ' ' || c == '\t' || c == '\n' || c == '\r'

/-- Strip leading and trailing whitespace from a character list. -/
def trimChars (l : List Char) : List Char :=
  ((l.dropWhile isSpaceChar).reverse.dropWhile isSpaceChar).reverse

/-- Python `s.strip()`. -/
def strTrim (s : String) : String :=
  ⟨trimChars s.data⟩

/-- Split a character list at every occurrence of `c`
(Python `s.split(c)`: the empty list yields one empty component). -/
def splitOnChar (c : Char) : List Char → List (List Char)
  | [] => [[]]
  | x :: xs =>
    let r := splitOnChar c xs
    if x == c then [] :: r
    else
      match r with
      | [] => [[x]]
      | h :: t => (x :: h) :: t

/-- Split a string at every occurrence of a separator character. -/
def strSplitOn (c : Char) (s : String) : List String :=
  (splitOnChar c s.data).map (fun l => ⟨l⟩)

/-- `pre` is a prefix of `l`. -/
def listIsPre [BEq α] : List α → List α → Bool
  | [], _ => true
  | _ :: _, [] => false
  | a :: as, b :: bs => a == b && listIsPre as bs

/-- Python `s.startswith(p)`. -/
def strStartsWith (s p : String) : Bool :=
  listIsPre p.data s.data

/-- Python `s.endswith(p)`. -/
def strEndsWith (s p : String) : Bool :=
  listIsPre p.data.reverse s.data.reverse

/-- `pat` occurs somewhere in `l`. -/
def containsSub [BEq α] (pat : List α) : List α → Bool
  | [] => listIsPre pat []
  | x :: xs => listIsPre pat (x :: xs) || containsSub pat xs

/-- Substring test: `pat` occurs in `s` (models Python `pat in s`). -/
def strContains (s pat : String) : Bool :=
  containsSub pat.data s.data

/-- Lowercase an ASCII character. -/
def lowerChar (c : Char) : Char :=
  if 65 ≤ c.toNat ∧ c.toNat ≤ 90 then Char.ofNat (c.toNat + 32) else c

/-- Python `s.lower()` on ASCII. -/
def strToLower (s : String) : String :=
  ⟨s.data.map lowerChar⟩

/-- `"youtube.com" in url or "youtu.be" in url`
(src/download_and_cut.py lines 86 and 188). -/
def isYoutubeUrl (u : String) : Bool :=
  strContains u "youtube.com" || strContains u "youtu.be"

/-- `normalize_url` (src/download_and_cut.py lines 77-92): strip whitespace,
return `None` on empty, prepend `https://` to `www.`-prefixed URLs and to
scheme-less YouTube URLs, pass everything else through. -/
def normalize_url (url : String) : Option String :=
  let u := strTrim url
  if u = "" then none
  else if strStartsWith u "www." then some ("https://" ++ u)
  else if !(strStartsWith u "http://" || strStartsWith u "https://") then
    if isYoutubeUrl u then some ("https://" ++ u) else some u
  else some u

/-- The extension of a path's final component, the comparison target of
`f.suffix.lower()` in src/download_and_cut.py line 161. -/
def pathSuffix (p : String) : String :=
  let name := (strSplitOn '/' p).getLastD ""
  match strSplitOn '.' name with
  | [] => ""
  | [_] => ""
  | parts => "." ++ parts.getLastD ""

/-! ## Python numeric-literal parsing (for `int(...)` / `float(...)` applied
to time-string components in src/download_cutter.py lines 16-24) -/

/-- Value of a digit string. -/
def digitsToNat (l : List Char) : ℕ :=
  l.foldl (fun a c => a * 10 + (c.toNat - 48)) 0

/-- Nonempty all-digit character list. -/
def isDigits (l : List Char) : Bool :=
  !l.isEmpty && l.all Char.isDigit

/-- Python `int(s)` on an optionally signed decimal-digit string; `none`
models `ValueError`. -/
def pyInt (s : String) : Option ℤ :=
  match trimChars s.data with
  | '-' :: rest => if isDigits rest then some (-(digitsToNat rest : ℤ)) else none
  | '+' :: rest => if isDigits rest then some (digitsToNat rest : ℤ) else none
  | l => if isDigits l then some (digitsToNat l : ℤ) else none

/-- Python `float(s)` on an optionally signed decimal literal
(`d`, `d.`, `.d`, `d.d`); `none` models `ValueError`. -/
def pyFloat (s : String) : Option ℚ :=
  let signBody : Bool × List Char :=
    match trimChars s.data with
    | '-' :: rest => (true, rest)
    | '+' :: rest => (false, rest)
    | l => (false, l)
  let value : Option ℚ :=
    match splitOnChar '.' signBody.2 with
    | [ip] => if isDigits ip then some (digitsToNat ip : ℚ) else none
    | [ip, fp] =>
        if (isDigits ip || ip.isEmpty) && (isDigits fp || fp.isEmpty)
            && !(ip.isEmpty && fp.isEmpty) then
          some ((digitsToNat ip : ℚ) + (digitsToNat fp : ℚ) / (10 ^ fp.length : ℚ))
        else none
    | _ => none
  value.map (fun v => if signBody.1 then -v else v)

/-- A time argument as accepted by `time_str_to_seconds`: already a number
(Python `int`/`float`), or a string. -/
abbrev TimeInput := ℚ ⊕ String

/-- `time_str_to_seconds` (src/download_cutter.py lines 9-29): numbers pass
through; strings split on `:` into 1-3 components parsed as
`int:int:float` / `int:float` / `float`.  Every parse error (`ValueError`,
including the explicitly raised "Invalid time format") is caught and the
function returns `0.0` after printing a warning. -/
def time_str_to_seconds (t : TimeInput) : ℚ :=
  match t with
  | .inl x => x
  | .inr str =>
    let s := strTrim str
    match strSplitOn ':' s with
    | [h, m, sec] =>
      match pyInt h, pyInt m, pyFloat sec with
      | some hv, some mv, some sv => (hv : ℚ) * 3600 + (mv : ℚ) * 60 + sv
      | _, _, _ => 0
    | [m, sec] =>
      match pyInt m, pyFloat sec with
      | some mv, some sv => (mv : ℚ) * 60 + sv
      | _, _ => 0
    | [sec] =>
      match pyFloat sec with
      | some v => v
      | none => 0
    | _ => 0

/-! ## Filesystem model: a list of `(path, size)` entries -/

/-- Filesystem state: the existing files with their sizes. -/
abbrev FS := List (String × ℕ)

/-- `path.exists()`. -/
def fsExists (fs : FS) (p : String) : Bool :=
  fs.any (fun e => e.1 == p)

/-- `path.exists() and path.stat().st_size > 0`. -/
def fsHasNonzero (fs : FS) (p : String) : Bool :=
  fs.any (fun e => e.1 == p && e.2 != 0)

/-- `os.remove(path)` (removing every entry at that path). -/
def fsRemove (fs : FS) (p : String) : FS :=
  fs.filter (fun e => e.1 != p)

/-- Write (or overwrite) a file of the given size. -/
def fsAdd (fs : FS) (p : String) (sz : ℕ) : FS :=
  (p, sz) :: fsRemove fs p

/-- Size of the file at `p` (0 when absent). -/
def fsSize (fs : FS) (p : String) : ℕ :=
  (fs.lookup p).getD 0

/-! ## Observable external effects of one row / one call -/

/-- Audit-log status codes (src/download_and_cut.py, `log_status` call sites). -/
inductive Status
  | SKIPPED_EXISTING
  | INVALID_DATA
  | FAILED_DOWNLOAD
  | FAILED_CUT
  | FAILED_POSTPROCESS
  | SUCCESS
deriving DecidableEq

/-- External actions performed while processing, in order. -/
inductive Effect
  | ytdlpCall
  | requestsCall
  | probeCall
  | ffmpegCall
  | renameCall
  | fileWrite (path : String)
  | fileDelete (path : String)
deriving DecidableEq

/-! ## Segment validation and cutting (src/download_cutter.py) -/

/-- The per-segment validation and end-clamping of
`download_and_cut_segments` (src/download_cutter.py lines 206-223): reject
negative times, start not before end, start at/beyond the full duration;
otherwise proceed with the end time clamped to the full duration.  `some e`
means the segment is cut with effective end `e`; `none` means it is skipped. -/
def segment_decision (full_duration start_sec end_sec : ℚ) : Option ℚ :=
  if start_sec < 0 ∨ end_sec < 0 then none
  else if start_sec ≥ end_sec then none
  else if start_sec ≥ full_duration then none
  else some (if end_sec > full_duration then full_duration else end_sec)

/-- Outcome of one ffmpeg segment invocation: success, a
`CalledProcessError` (loop continues), or `FileNotFoundError` (loop breaks). -/
inductive SegOutcome
  | ok
  | procErr
  | toolMissing

/-- The segment loop of `download_and_cut_segments`
(src/download_cutter.py lines 198-289): for each segment, convert the
requested times, validate/clamp via `segment_decision`, and if valid invoke
ffmpeg; on success the produced segment's duration is probed; a missing tool
breaks the loop. -/
def run_segments (full_duration : ℚ) (outcome : ℕ → SegOutcome) :
    List (TimeInput × TimeInput) → ℕ → List Effect
  | [], _ => []
  | (s, e) :: rest, i =>
    let start_sec := time_str_to_seconds s
    let end_sec := time_str_to_seconds e
    match segment_decision full_duration start_sec end_sec with
    | none => run_segments full_duration outcome rest (i + 1)
    | some _ =>
      match outcome i with
      | .ok => .ffmpegCall :: .probeCall :: run_segments full_duration outcome rest (i + 1)
      | .procErr => .ffmpegCall :: run_segments full_duration outcome rest (i + 1)
      | .toolMissing => [.ffmpegCall]

/-- The post-download phase of `download_and_cut_segments`
(src/download_cutter.py lines 172-304): probe the downloaded file's duration
(`get_video_duration`); if it cannot be obtained, return without cutting
anything (cleaning up the full video when requested); otherwise run the
segment loop and then the cleanup.  `duration = none` models every
`get_video_duration` failure path (file missing, ffprobe missing, unparsable
output). -/
def cut_segments_phase (downloaded_path : String) (duration : Option ℚ)
    (outcome : ℕ → SegOutcome) (segments : List (TimeInput × TimeInput))
    (cleanup_full_video : Bool) : List Effect :=
  .probeCall ::
    (match duration with
     | none => if cleanup_full_video then [.fileDelete downloaded_path] else []
     | some d =>
        run_segments d outcome segments 0 ++
          (if cleanup_full_video then [.fileDelete downloaded_path] else []))

/-! ## The two-strategy downloader (src/download_and_cut.py, `download_video`) -/

/-- Outcome of the yt-dlp attempt (src/download_and_cut.py lines 143-184):
reported success together with the files matching the glob
`{template}.*` afterwards (with sizes), a `DownloadError`, or any other
exception. -/
inductive YtdlpOutcome
  | reportedOk (files : List (String × ℕ))
  | downloadError
  | unexpectedError

/-- Outcome of the streamed `requests.get` fallback: an HTTP-2xx body of the
given byte size written to the target, or a request/HTTP error. -/
inductive RequestsOutcome
  | httpOk (size : ℕ)
  | requestError

/-- Environment of one `download_video` call: what the external downloader
and the HTTP client would do. -/
structure DlEnv where
  ytdlp : YtdlpOutcome
  req : RequestsOutcome

/-- File resolution after a reported yt-dlp success
(src/download_and_cut.py lines 150-168): no match -> none; exactly one
match -> it; several matches -> the unique `.mp4` if there is exactly one,
else the first match. -/
def resolveDownload (files : List (String × ℕ)) : Option (String × ℕ) :=
  match files with
  | [] => none
  | [f] => some f
  | f :: rest =>
    let mp4_files := (f :: rest).filter (fun g => strToLower (pathSuffix g.1) == ".mp4")
    match mp4_files with
    | [g] => some g
    | _ => some f

/-- Whether the yt-dlp attempt yielded a usable file
(src/download_and_cut.py lines 143-176): reported success, a resolved file,
and that file nonempty. -/
def ytdlpUsable (o : YtdlpOutcome) : Option (String × ℕ) :=
  match o with
  | .reportedOk files =>
    match resolveDownload files with
    | some f => if f.2 != 0 then some f else none
    | none => none
  | .downloadError => none
  | .unexpectedError => none

/-- `download_video` (src/download_and_cut.py lines 120-239).  Attempt 1:
yt-dlp against `output_template` (the files it produced are written to the
filesystem); if that yields a usable file, return it.  Otherwise the requests
fallback runs exactly when the URL ends in `.mp4` and is not a YouTube URL:
it writes `output_template + ".mp4"`, succeeds if the result is nonempty, and
deletes a partial (empty) file on failure.  Returns the downloaded path (or
`none`), the ordered external effects, and the resulting filesystem. -/
def download_video (url : String) (output_template : String) (env : DlEnv)
    (fs : FS) : Option String × List Effect × FS :=
  let fs1 : FS :=
    match env.ytdlp with
    | .reportedOk files => files.foldl (fun a f => fsAdd a f.1 f.2) fs
    | _ => fs
  match ytdlpUsable env.ytdlp with
  | some f => (some f.1, [.ytdlpCall], fs1)
  | none =>
    let is_direct_mp4 := strEndsWith url ".mp4"
    let is_youtube := isYoutubeUrl url
    if is_direct_mp4 && !is_youtube then
      let requests_output_path := output_template ++ ".mp4"
      match env.req with
      | .httpOk size =>
        let fs2 := fsAdd fs1 requests_output_path size
        if size != 0 then
          (some requests_output_path,
            [.ytdlpCall, .requestsCall, .fileWrite requests_output_path], fs2)
        else
          (none,
            [.ytdlpCall, .requestsCall, .fileWrite requests_output_path,
              .fileDelete requests_output_path],
            fsRemove fs2 requests_output_path)
      | .requestError => (none, [.ytdlpCall, .requestsCall], fs1)
    else (none, [.ytdlpCall], fs1)

/-! ## The ffmpeg cut (src/download_and_cut.py, `cut_video`) -/

/-- Outcome of the single ffmpeg invocation in `cut_video`: process success
writing an output of the given size, `CalledProcessError`, or
`FileNotFoundError` (ffmpeg binary missing). -/
inductive CutOutcome
  | procOk (outSize : ℕ)
  | procError
  | toolMissing

/-- `cut_video` (src/download_and_cut.py lines 241-285): one ffmpeg
invocation (no duration probe anywhere); on process success the output must
exist and be nonempty, otherwise the call reports failure.  Returns the
success flag, the effects, and the resulting filesystem. -/
def cut_video (input_path output_path : String) (start_sec end_sec : ℚ)
    (co : CutOutcome) (fs : FS) : Bool × List Effect × FS :=
  match co with
  | .procOk size =>
    let fs1 := fsAdd fs output_path size
    (size != 0, [.ffmpegCall, .fileWrite output_path], fs1)
  | .procError => (false, [.ffmpegCall], fs)
  | .toolMissing => (false, [.ffmpegCall], fs)

/-! ## The per-row orchestration loop (src/download_and_cut.py lines 333-496) -/

/-- One manifest row with fields as handed to the numeric coercions;
`none` models a value on which the Python coercion (`int(...)`,
`float(...)`) raises, or a missing/NaN URL or dataset tag. -/
structure ManifestRow where
  id : Option ℤ
  url : Option String
  frame_start : Option ℤ
  frame_end : Option ℤ
  fps : Option ℚ
  dataset_type : Option String

/-- Environment of one row: the initial filesystem and the behavior of the
external tools for this row. -/
structure RowEnv where
  fs0 : FS
  dl : DlEnv
  cut : CutOutcome
  renameOk : Bool

/-- Observable result of processing one row: audit records written, the
increments to the success/skipped/failed counters, the ordered external
effects, and the final filesystem. -/
structure RowResult where
  records : List Status
  succInc : ℕ
  skipInc : ℕ
  failInc : ℕ
  effects : List Effect
  fs : FS

/-- `OUTPUT_VIDEO_DIR / f"{video_id}.mp4"` (line 348). -/
def expectedOutputPath (video_id : ℤ) : String :=
  "videos/" ++ toString video_id ++ ".mp4"

/-- `OUTPUT_VIDEO_DIR / f"{video_id}_temp"` (line 402). -/
def tempTemplate (video_id : ℤ) : String :=
  "videos/" ++ toString video_id ++ "_temp"

/-- `final_output_target.with_suffix('')` (line 407). -/
def directTemplate (video_id : ℤ) : String :=
  "videos/" ++ toString video_id

/-- Adjusted start frame (src/download_and_cut.py lines 431-437): WLASL rows
are 1-based, so subtract one, clamping negative results to zero; all other
rows are used as-is. -/
def adjusted_frame_start (dataset_type : String) (frame_start : ℤ) : ℤ :=
  if dataset_type = "WLASL" then
    (if frame_start ≥ 1 then frame_start - 1 else 0)
  else frame_start

/-- `start_time_sec = adjusted_frame_start / fps` (line 439). -/
def start_time_sec (dataset_type : String) (frame_start : ℤ) (fps : ℚ) : ℚ :=
  (adjusted_frame_start dataset_type frame_start : ℚ) / fps

/-- `end_time_sec = frame_end / fps` (line 440). -/
def end_time_sec (frame_end : ℤ) (fps : ℚ) : ℚ :=
  (frame_end : ℚ) / fps

/-- An `INVALID_DATA` terminal result (status logged, failure counted,
nothing else done). -/
def invalidResult (fs : FS) : RowResult :=
  ⟨[.INVALID_DATA], 0, 0, 1, [], fs⟩

/-- The body of the processing loop of src/download_and_cut.py
(lines 333-496) for one row, in source order: numeric validation
(`INVALID_DATA`), missing-URL check, dataset-tag warning (no rejection),
skip-existing check (`SKIPPED_EXISTING`), URL normalization, download
(`FAILED_DOWNLOAD` on failure); when `frame_end != -1` the time window is
computed (a `ValueError` for invalid times logs `FAILED_CUT` and counts a
failure), `cut_video` runs, the temporary download is removed regardless of
the cut's outcome, and a failed cut counts one more failure *without logging
any record in the `cut_video`-returned-False case*; when no cut is needed the
download is renamed into place (`FAILED_POSTPROCESS` on rename failure);
`SUCCESS` is logged when `cut_success` survived. -/
def processRow (r : ManifestRow) (env : RowEnv) : RowResult :=
  match r.id, r.frame_start, r.frame_end, r.fps with
  | some video_id, some frame_start, some frame_end, some fps =>
    if fps ≤ 0 then invalidResult env.fs0
    else
      match r.url with
      | none => invalidResult env.fs0
      | some url =>
        if url = "" then invalidResult env.fs0
        else
          let expected := expectedOutputPath video_id
          if fsHasNonzero env.fs0 expected then
            ⟨[.SKIPPED_EXISTING], 0, 1, 0, [], env.fs0⟩
          else
            match normalize_url url with
            | none => invalidResult env.fs0
            | some normalized_url =>
              let needs_cutting : Bool := frame_end != -1
              let download_output_template :=
                if needs_cutting then tempTemplate video_id
                else directTemplate video_id
              match download_video normalized_url download_output_template
                  env.dl env.fs0 with
              | (none, eff, fs1) => ⟨[.FAILED_DOWNLOAD], 0, 0, 1, eff, fs1⟩
              | (some downloaded_full_path, eff, fs1) =>
                if needs_cutting then
                  let dt := r.dataset_type.getD ""
                  let start_sec := start_time_sec dt frame_start fps
                  let end_sec := end_time_sec frame_end fps
                  if start_sec < 0 ∨ end_sec < start_sec then
                    -- ValueError: FAILED_CUT logged, failed_count += 1; the
                    -- temp file is removed; `if not cut_success` then counts
                    -- a second failure for the same row.
                    ⟨[.FAILED_CUT], 0, 0, 2,
                      eff ++ [.fileDelete downloaded_full_path],
                      fsRemove fs1 downloaded_full_path⟩
                  else
                    match cut_video downloaded_full_path expected
                        start_sec end_sec env.cut fs1 with
                    | (true, ceff, fs2) =>
                      ⟨[.SUCCESS], 1, 0, 0,
                        eff ++ ceff ++ [.fileDelete downloaded_full_path],
                        fsRemove fs2 downloaded_full_path⟩
                    | (false, ceff, fs2) =>
                      -- cut_video returned False: no log_status call on this
                      -- path; failed_count += 1 and continue.
                      ⟨[], 0, 0, 1,
                        eff ++ ceff ++ [.fileDelete downloaded_full_path],
                        fsRemove fs2 downloaded_full_path⟩
                else
                  if downloaded_full_path ≠ expected then
                    if env.renameOk then
                      let sz := fsSize fs1 downloaded_full_path
                      ⟨[.SUCCESS], 1, 0, 0, eff ++ [.renameCall],
                        fsAdd (fsRemove fs1 downloaded_full_path) expected sz⟩
                    else
                      ⟨[.FAILED_POSTPROCESS], 0, 0, 1,
                        eff ++ [.renameCall, .fileDelete downloaded_full_path],
                        fsRemove fs1 downloaded_full_path⟩
                  else ⟨[.SUCCESS], 1, 0, 0, eff, fs1⟩
  | _, _, _, _ => invalidResult env.fs0

/-! ## Concrete fixtures used by the closed theorems -/

/-- A direct, non-YouTube URL ending in the canonical extension; it passes
`normalize_url` unchanged. -/
def sampleUrl : String := "http://example.com/v.mp4"

/-- A valid row needing a trim: id 7, frames 0..30 at 30 fps, MSASL. -/
def rowTrim : ManifestRow :=
  ⟨some 7, some sampleUrl, some 0, some 30, some 30, some "MSASL"⟩

/-- A row whose frame range is reversed: frames 90..30 at 30 fps. -/
def rowBadOrder : ManifestRow :=
  ⟨some 7, some sampleUrl, some 90, some 30, some 30, some "MSASL"⟩

/-- A row whose adjusted end equals its adjusted start: frames 30..30. -/
def rowEqualFrames : ManifestRow :=
  ⟨some 7, some sampleUrl, some 30, some 30, some 30, some "MSASL"⟩

/-- A row with non-positive fps (invalid data). -/
def rowZeroFps : ManifestRow :=
  ⟨some 7, some sampleUrl, some 0, some 30, some 0, some "MSASL"⟩

/-- A download environment where yt-dlp produces the scratch file
`videos/7_temp.mp4` of 100 bytes. -/
def dlOk : DlEnv := ⟨.reportedOk [("videos/7_temp.mp4", 100)], .requestError⟩

/-- Empty output directory; download succeeds; ffmpeg succeeds. -/
def envCutOk : RowEnv := ⟨[], dlOk, .procOk 50, true⟩

/-- Empty output directory; download succeeds; ffmpeg exits non-zero. -/
def envCutFails : RowEnv := ⟨[], dlOk, .procError, true⟩

/-- The final output `videos/7.mp4` already exists with nonzero size. -/
def envExisting : RowEnv :=
  ⟨[("videos/7.mp4", 5)], ⟨.downloadError, .requestError⟩, .procError, true⟩


/-! ## Helper lemmas -/

/-- Removing a path removes every entry at it. -/
theorem fsExists_fsRemove (fs : FS) (p : String) :
    fsExists (fsRemove fs p) p = false := by
  simp only [fsExists, fsRemove, List.any_eq_false, List.mem_filter]
  rintro x ⟨-, hx⟩
  simpa using hx

/-- `download_video` never invokes the transcoder. -/
theorem ffmpeg_not_in_download (url output_template : String) (env : DlEnv)
    (fs : FS) :
    Effect.ffmpegCall ∉ (download_video url output_template env fs).2.1 := by
  unfold download_video
  rcases h : ytdlpUsable env.ytdlp with _ | f
  · dsimp only
    by_cases he : strEndsWith url ".mp4"
    · by_cases hy : isYoutubeUrl url
      · simp [he, hy]
      · cases hq : env.req with
        | httpOk size =>
          by_cases hs : size = 0 <;> simp [he, hy, hq, hs]
        | requestError => simp [he, hy, hq]
    · simp [he]
  · simp

/-- A non-WLASL dataset tag leaves the start frame unadjusted. -/
theorem adjusted_MSASL (k : ℤ) : adjusted_frame_start "MSASL" k = k := by
  unfold adjusted_frame_start
  rw [if_neg (by decide)]

/-- Start time for a non-WLASL row. -/
theorem stime_MSASL (k : ℤ) (f : ℚ) :
    start_time_sec "MSASL" k f = (k : ℚ) / f := by
  unfold start_time_sec
  rw [adjusted_MSASL]

/-- Evaluation of the row-processing loop body along the needs-cutting path,
once validation, the skip check, URL normalization, and a successful download
are fixed by hypotheses: the outcome is decided by the time validation and
the `cut_video` result, and the scratch download is removed in every case. -/
theorem processRow_cut_eval (r : ManifestRow) (env : RowEnv)
    (i k0 ke : ℤ) (f : ℚ) (u nu dl : String) (eff : List Effect) (fs1 : FS)
    (hid : r.id = some i) (hk : r.frame_start = some k0)
    (hke : r.frame_end = some ke) (hf : r.fps = some f) (hfpos : 0 < f)
    (hu : r.url = some u) (hne : u ≠ "")
    (hskip : fsHasNonzero env.fs0 (expectedOutputPath i) = false)
    (hnorm : normalize_url u = some nu) (hneeds : ke ≠ -1)
    (hdl : download_video nu (tempTemplate i) env.dl env.fs0 =
      (some dl, eff, fs1)) :
    processRow r env =
      if start_time_sec (r.dataset_type.getD "") k0 f < 0 ∨
          end_time_sec ke f < start_time_sec (r.dataset_type.getD "") k0 f then
        ⟨[.FAILED_CUT], 0, 0, 2, eff ++ [.fileDelete dl], fsRemove fs1 dl⟩
      else
        match cut_video dl (expectedOutputPath i)
            (start_time_sec (r.dataset_type.getD "") k0 f) (end_time_sec ke f)
            env.cut fs1 with
        | (true, ceff, fs2) =>
          ⟨[.SUCCESS], 1, 0, 0, eff ++ ceff ++ [.fileDelete dl],
            fsRemove fs2 dl⟩
        | (false, ceff, fs2) =>
          ⟨[], 0, 0, 1, eff ++ ceff ++ [.fileDelete dl],
            fsRemove fs2 dl⟩ := by
  have h0 : ¬ (f ≤ 0) := not_le.mpr hfpos
  have hn : (ke != -1) = true := bne_iff_ne.mpr hneeds
  unfold processRow
  rw [hid, hk, hke, hf, hu]
  simp only [if_neg h0, if_neg hne, hskip, Bool.false_eq_true, if_false,
    hnorm, hn, if_true, hdl]

/-! ## Claims -/

/-- C1: the claim states that exactly one StatusRecord is emitted per row per
attempt on every path, including the path where the transcoder invocation
itself fails.  On the path where `cut_video` returns `False` (ffmpeg exits
non-zero) no audit record at all is written, although the failure counter is
incremented and the transcoder was invoked: the code's own comment at
src/download_and_cut.py line 471 ("Already logged status inside cut_video or
exception block") asserts a record exists, but `cut_video` never writes the
audit log. -/
theorem C1_no_record_when_transcode_fails :
    (processRow rowTrim envCutFails).records = [] ∧
    (processRow rowTrim envCutFails).failInc = 1 ∧
    Effect.ffmpegCall ∈ (processRow rowTrim envCutFails).effects := by
  have hcond : ¬ (start_time_sec (rowTrim.dataset_type.getD "") 0 30 < 0 ∨
      end_time_sec 30 30 < start_time_sec (rowTrim.dataset_type.getD "") 0 30) := by
    simp only [rowTrim, Option.getD_some]
    rw [stime_MSASL]
    unfold end_time_sec
    push_cast
    norm_num
  have heval : processRow rowTrim envCutFails =
      ⟨[], 0, 0, 1,
        [.ytdlpCall, .ffmpegCall, .fileDelete "videos/7_temp.mp4"], []⟩ := by
    rw [processRow_cut_eval rowTrim envCutFails 7 0 30 30 sampleUrl sampleUrl
      "videos/7_temp.mp4" [.ytdlpCall] [("videos/7_temp.mp4", 100)]
      rfl rfl rfl rfl (by norm_num) rfl (by decide) (by decide) (by decide)
      (by decide) (by decide)]
    rw [if_neg hcond]
    rfl
  rw [heval]
  exact ⟨rfl, rfl, by decide⟩

/-- C2 counterexample: a trim request served by the main pipeline's
`cut_video` proceeds to the transcoder without any duration probe, so the
claim "for every trim request the Trimmer first measures the source's
duration via the Probe" is false on this concrete row. -/
theorem C2_counterexample :
    Effect.ffmpegCall ∈ (processRow rowTrim envCutOk).effects ∧
    Effect.probeCall ∉ (processRow rowTrim envCutOk).effects := by
  have hcond : ¬ (start_time_sec (rowTrim.dataset_type.getD "") 0 30 < 0 ∨
      end_time_sec 30 30 < start_time_sec (rowTrim.dataset_type.getD "") 0 30) := by
    simp only [rowTrim, Option.getD_some]
    rw [stime_MSASL]
    unfold end_time_sec
    push_cast
    norm_num
  have heval : processRow rowTrim envCutOk =
      ⟨[.SUCCESS], 1, 0, 0,
        [.ytdlpCall, .ffmpegCall, .fileWrite "videos/7.mp4",
          .fileDelete "videos/7_temp.mp4"],
        [("videos/7.mp4", 50)]⟩ := by
    rw [processRow_cut_eval rowTrim envCutOk 7 0 30 30 sampleUrl sampleUrl
      "videos/7_temp.mp4" [.ytdlpCall] [("videos/7_temp.mp4", 100)]
      rfl rfl rfl rfl (by norm_num) rfl (by decide) (by decide) (by decide)
      (by decide) (by decide)]
    rw [if_neg hcond]
    rfl
  rw [heval]
  exact ⟨by decide, by decide⟩

/-- C2 amended: in the segment cutter (`download_and_cut_segments`), the
duration probe always comes first, and when the duration cannot be obtained
no transcoder invocation happens; the main pipeline's `cut_video`, by
contrast, never probes at all. -/
theorem C2_amended_probe_guard :
    (∀ (p : String) (d : Option ℚ) (oc : ℕ → SegOutcome)
        (segs : List (TimeInput × TimeInput)) (cl : Bool),
        (cut_segments_phase p d oc segs cl).head? = some .probeCall)
  ∧ (∀ (p : String) (oc : ℕ → SegOutcome)
        (segs : List (TimeInput × TimeInput)) (cl : Bool),
        Effect.ffmpegCall ∉ cut_segments_phase p none oc segs cl)
  ∧ (∀ (input_path output_path : String) (start_sec end_sec : ℚ)
        (co : CutOutcome) (fs : FS),
        Effect.probeCall ∉
          (cut_video input_path output_path start_sec end_sec co fs).2.1) := by
  refine ⟨fun p d oc segs cl => rfl, fun p oc segs cl => ?_,
    fun i o s e co fs => ?_⟩
  · cases cl <;> simp [cut_segments_phase]
  · cases co <;> simp [cut_video]

/-- C3: in the segment cutter's validation, a start time at or beyond the
measured duration is always rejected (the segment is skipped), while an end
time beyond the duration on an otherwise valid segment is clamped to the
duration and the segment proceeds. -/
theorem C3_clamp_and_reject (full_duration start_sec end_sec : ℚ) :
    (start_sec ≥ full_duration →
      segment_decision full_duration start_sec end_sec = none)
  ∧ (0 ≤ start_sec → start_sec < end_sec → start_sec < full_duration →
      full_duration < end_sec →
      segment_decision full_duration start_sec end_sec = some full_duration) := by
  constructor
  · intro h
    unfold segment_decision
    split_ifs <;> rfl
  · intro h0 hlt hsd hde
    unfold segment_decision
    split_ifs with h1 h2 h3
    · rcases h1 with h | h <;> linarith
    · linarith
    · linarith
    · rfl

/-- C3 witness: with duration 5, a segment starting at 6 is rejected; a
segment [2, 7] proceeds with its end clamped to 5. -/
theorem C3_witness :
    segment_decision 5 6 7 = none ∧ segment_decision 5 2 7 = some 5 :=
  ⟨(C3_clamp_and_reject 5 6 7).1 (by norm_num),
   (C3_clamp_and_reject 5 2 7).2 (by norm_num) (by norm_num) (by norm_num)
     (by norm_num)⟩

/-- C4 counterexample: the claim says a row with adjusted frameEnd not
strictly greater than adjusted frameStart is rejected before any I/O.  In
fact a reversed range (frames 90..30) is only marked FAILED_CUT after the
download has been attempted, and an equal range (frames 30..30) is not
rejected at all — it is downloaded, handed to the transcoder, and reported
SUCCESS. -/
theorem C4_counterexample :
    ((processRow rowBadOrder envCutOk).records = [.FAILED_CUT] ∧
      Effect.ytdlpCall ∈ (processRow rowBadOrder envCutOk).effects) ∧
    ((processRow rowEqualFrames envCutOk).records = [.SUCCESS] ∧
      Effect.ffmpegCall ∈ (processRow rowEqualFrames envCutOk).effects) := by
  have hord : end_time_sec 30 30 <
      start_time_sec (rowBadOrder.dataset_type.getD "") 90 30 := by
    simp only [rowBadOrder, Option.getD_some]
    rw [stime_MSASL]
    unfold end_time_sec
    push_cast
    norm_num
  have heval1 : processRow rowBadOrder envCutOk =
      ⟨[.FAILED_CUT], 0, 0, 2,
        [.ytdlpCall, .fileDelete "videos/7_temp.mp4"], []⟩ := by
    rw [processRow_cut_eval rowBadOrder envCutOk 7 90 30 30 sampleUrl
      sampleUrl "videos/7_temp.mp4" [.ytdlpCall] [("videos/7_temp.mp4", 100)]
      rfl rfl rfl rfl (by norm_num) rfl (by decide) (by decide) (by decide)
      (by decide) (by decide)]
    rw [if_pos (Or.inr hord)]
    rfl
  have hcond2 : ¬ (start_time_sec (rowEqualFrames.dataset_type.getD "") 30 30 < 0 ∨
      end_time_sec 30 30 <
        start_time_sec (rowEqualFrames.dataset_type.getD "") 30 30) := by
    simp only [rowEqualFrames, Option.getD_some]
    rw [stime_MSASL]
    unfold end_time_sec
    push_cast
    norm_num
  have heval2 : processRow rowEqualFrames envCutOk =
      ⟨[.SUCCESS], 1, 0, 0,
        [.ytdlpCall, .ffmpegCall, .fileWrite "videos/7.mp4",
          .fileDelete "videos/7_temp.mp4"],
        [("videos/7.mp4", 50)]⟩ := by
    rw [processRow_cut_eval rowEqualFrames envCutOk 7 30 30 30 sampleUrl
      sampleUrl "videos/7_temp.mp4" [.ytdlpCall] [("videos/7_temp.mp4", 100)]
      rfl rfl rfl rfl (by norm_num) rfl (by decide) (by decide) (by decide)
      (by decide) (by decide)]
    rw [if_neg hcond2]
    rfl
  exact ⟨⟨by rw [heval1], by rw [heval1]; decide⟩,
    ⟨by rw [heval2], by rw [heval2]; decide⟩⟩

/-- C4 amended: for a row needing a trim whose adjusted end time is strictly
less than its adjusted start time, the row is marked FAILED_CUT and the
transcoder is never invoked — but only after the download was attempted; the
rejection does not happen before I/O, and an end equal to the start is not
rejected. -/
theorem C4_amended_reject_after_download (r : ManifestRow) (env : RowEnv)
    (i k0 ke : ℤ) (f : ℚ) (u nu dl : String) (eff : List Effect) (fs1 : FS)
    (hid : r.id = some i) (hk : r.frame_start = some k0)
    (hke : r.frame_end = some ke) (hf : r.fps = some f) (hfpos : 0 < f)
    (hu : r.url = some u) (hne : u ≠ "")
    (hskip : fsHasNonzero env.fs0 (expectedOutputPath i) = false)
    (hnorm : normalize_url u = some nu) (hneeds : ke ≠ -1)
    (hdl : download_video nu (tempTemplate i) env.dl env.fs0 =
      (some dl, eff, fs1))
    (horder : end_time_sec ke f <
      start_time_sec (r.dataset_type.getD "") k0 f) :
    (processRow r env).records = [.FAILED_CUT] ∧
    Effect.ffmpegCall ∉ (processRow r env).effects := by
  have hstart := ffmpeg_not_in_download nu (tempTemplate i) env.dl env.fs0
  rw [hdl] at hstart
  rw [processRow_cut_eval r env i k0 ke f u nu dl eff fs1 hid hk hke hf hfpos
    hu hne hskip hnorm hneeds hdl]
  rw [if_pos (Or.inr horder)]
  refine ⟨rfl, ?_⟩
  dsimp only
  simp only [List.mem_append, List.mem_singleton]
  rintro (h | h)
  · exact hstart h
  · exact Effect.noConfusion h

/-- C4 witness: the amended statement at the reversed-range row. -/
theorem C4_witness :
    (processRow rowBadOrder envCutOk).records = [.FAILED_CUT] ∧
    Effect.ffmpegCall ∉ (processRow rowBadOrder envCutOk).effects :=
  C4_amended_reject_after_download rowBadOrder envCutOk 7 90 30 30
    sampleUrl sampleUrl "videos/7_temp.mp4" [.ytdlpCall]
    [("videos/7_temp.mp4", 100)] rfl rfl rfl rfl (by norm_num) rfl
    (by decide) (by decide) (by decide) (by decide) (by decide)
    (by
      simp only [rowBadOrder, Option.getD_some]
      rw [stime_MSASL]
      unfold end_time_sec
      push_cast
      norm_num)

/-- C5: the trim window is start = adjustedFrameStart/fps and
end = frameEnd/fps, where the adjusted start frame is frameStart - 1 clamped
below at zero under the WLASL convention and frameStart otherwise; in
particular frames 30..90 at 30 fps give the window [1s, 3s], and WLASL
frameStart 30 gives 29/30 s. -/
theorem C5_window_formula :
    (∀ (dataset_type : String) (frame_start : ℤ),
        adjusted_frame_start dataset_type frame_start =
          if dataset_type = "WLASL" then max (frame_start - 1) 0
          else frame_start)
  ∧ start_time_sec "MSASL" 30 30 = 1
  ∧ end_time_sec 90 30 = 3
  ∧ start_time_sec "WLASL" 30 30 = 29 / 30 := by
  refine ⟨fun d k => ?_, ?_, ?_, ?_⟩
  · unfold adjusted_frame_start
    split_ifs <;> omega
  · rw [stime_MSASL]
    push_cast
    norm_num
  · unfold end_time_sec
    push_cast
    norm_num
  · have h : adjusted_frame_start "WLASL" 30 = 29 := by
      unfold adjusted_frame_start
      rw [if_pos rfl, if_pos (by norm_num)]
      norm_num
    unfold start_time_sec
    rw [h]
    push_cast
    norm_num

/-- C6 counterexample: the claim says malformed input fails rather than
silently returning zero; in fact `time_str_to_seconds` catches every parse
error and returns 0.0 (after printing a warning), as these malformed inputs
— non-numeric parts, empty input, four components — show. -/
theorem C6_counterexample :
    time_str_to_seconds (.inr "a:b:c") = 0 ∧
    time_str_to_seconds (.inr "") = 0 ∧
    time_str_to_seconds (.inr "1:2:3:4") = 0 :=
  ⟨rfl, rfl, rfl⟩

/-- C6 amended: `time_str_to_seconds` maps "1:02:03.5" to 3723.5 and "65" to
65.0 and passes numeric input through; but on malformed input (more than
three colon-separated components, non-numeric parts, or empty input) it
returns 0.0 instead of failing. -/
theorem C6_amended_parse :
    (∀ q : ℚ, time_str_to_seconds (.inl q) = q)
  ∧ time_str_to_seconds (.inr "1:02:03.5") = 7447 / 2
  ∧ time_str_to_seconds (.inr "65") = 65
  ∧ time_str_to_seconds (.inr "a:b:c") = 0
  ∧ time_str_to_seconds (.inr "") = 0
  ∧ time_str_to_seconds (.inr "1:2:3:4") = 0 := by
  refine ⟨fun q => rfl, ?_, ?_, rfl, rfl, rfl⟩
  · have h1 : time_str_to_seconds (.inr "1:02:03.5") =
        ((1 : ℤ) : ℚ) * 3600 + ((2 : ℤ) : ℚ) * 60 +
          (((3 : ℕ) : ℚ) + ((5 : ℕ) : ℚ) / ((10 : ℚ) ^ (1 : ℕ))) := rfl
    rw [h1]
    push_cast
    norm_num
  · have h2 : time_str_to_seconds (.inr "65") = ((65 : ℕ) : ℚ) := rfl
    rw [h2]
    push_cast
    norm_num

/-- C7 counterexample: the claim says every row whose output file already
exists with nonzero size terminates with SKIPPED_EXISTING; but field
validation runs first, so a row with non-positive fps is marked INVALID_DATA
even though its output file exists. -/
theorem C7_counterexample :
    fsHasNonzero envExisting.fs0 (expectedOutputPath 7) = true ∧
    (processRow rowZeroFps envExisting).records = [.INVALID_DATA] ∧
    (processRow rowZeroFps envExisting).records ≠ [.SKIPPED_EXISTING] := by
  have heval : processRow rowZeroFps envExisting =
      invalidResult envExisting.fs0 := by
    simp only [processRow, rowZeroFps, le_refl, if_true]
  refine ⟨by decide, ?_, ?_⟩ <;> rw [heval] <;> decide

/-- C7 amended: every row that passes field validation (coercible numeric
fields, positive fps, present non-empty URL) and whose output path already
exists with nonzero size terminates immediately with SKIPPED_EXISTING,
performing no download, trim, or file operation and leaving the filesystem
unchanged — which is what makes a second run over a manifest of completed
rows produce identical files and report those rows as SKIPPED_EXISTING. -/
theorem C7_amended_skip_existing (r : ManifestRow) (env : RowEnv)
    (i k0 ke : ℤ) (f : ℚ) (u : String)
    (hid : r.id = some i) (hk : r.frame_start = some k0)
    (hke : r.frame_end = some ke) (hf : r.fps = some f) (hfpos : 0 < f)
    (hu : r.url = some u) (hne : u ≠ "")
    (hex : fsHasNonzero env.fs0 (expectedOutputPath i) = true) :
    processRow r env = ⟨[.SKIPPED_EXISTING], 0, 1, 0, [], env.fs0⟩ := by
  have h0 : ¬ (f ≤ 0) := not_le.mpr hfpos
  unfold processRow
  rw [hid, hk, hke, hf, hu]
  simp only [if_neg h0, if_neg hne, hex, if_true]

/-- C7 witness: the amended statement at a valid completed row. -/
theorem C7_witness :
    processRow rowTrim envExisting =
      ⟨[.SKIPPED_EXISTING], 0, 1, 0, [], envExisting.fs0⟩ :=
  C7_amended_skip_existing rowTrim envExisting 7 0 30 30 sampleUrl
    rfl rfl rfl rfl (by norm_num) rfl (by decide) (by decide)

/-- C8: for every row needing a trim whose fetch produced a scratch file,
that scratch file is absent from the filesystem when the row's processing
completes, on every path through the cut step (time-validation failure, cut
failure, or success). -/
theorem C8_scratch_deleted (r : ManifestRow) (env : RowEnv)
    (i k0 ke : ℤ) (f : ℚ) (u nu dl : String) (eff : List Effect) (fs1 : FS)
    (hid : r.id = some i) (hk : r.frame_start = some k0)
    (hke : r.frame_end = some ke) (hf : r.fps = some f) (hfpos : 0 < f)
    (hu : r.url = some u) (hne : u ≠ "")
    (hskip : fsHasNonzero env.fs0 (expectedOutputPath i) = false)
    (hnorm : normalize_url u = some nu) (hneeds : ke ≠ -1)
    (hdl : download_video nu (tempTemplate i) env.dl env.fs0 =
      (some dl, eff, fs1)) :
    fsExists (processRow r env).fs dl = false := by
  rw [processRow_cut_eval r env i k0 ke f u nu dl eff fs1 hid hk hke hf hfpos
    hu hne hskip hnorm hneeds hdl]
  split_ifs with ht
  · exact fsExists_fsRemove _ _
  · rcases hc : cut_video dl (expectedOutputPath i)
        (start_time_sec (r.dataset_type.getD "") k0 f) (end_time_sec ke f)
        env.cut fs1 with ⟨b, ceff, fs2⟩
    cases b <;> exact fsExists_fsRemove _ _

/-- C8 witness: the scratch file `videos/7_temp.mp4` is gone after a
successfully trimmed row. -/
theorem C8_witness :
    fsExists (processRow rowTrim envCutOk).fs "videos/7_temp.mp4" = false :=
  C8_scratch_deleted rowTrim envCutOk 7 0 30 30 sampleUrl sampleUrl
    "videos/7_temp.mp4" [.ytdlpCall] [("videos/7_temp.mp4", 100)]
    rfl rfl rfl rfl (by norm_num) rfl (by decide) (by decide) (by decide)
    (by decide) (by decide)

/-- C9: the requests fallback is attempted exactly when the yt-dlp attempt
did not yield a usable file, the URL ends in ".mp4", and the URL is not a
YouTube URL; in particular it is never attempted for YouTube URLs regardless
of extension. -/
theorem C9_fallback_iff (url output_template : String) (env : DlEnv)
    (fs : FS) :
    Effect.requestsCall ∈ (download_video url output_template env fs).2.1 ↔
      (ytdlpUsable env.ytdlp = none ∧ strEndsWith url ".mp4" = true ∧
        isYoutubeUrl url = false) := by
  unfold download_video
  rcases h : ytdlpUsable env.ytdlp with _ | f
  · dsimp only
    by_cases he : strEndsWith url ".mp4"
    · by_cases hy : isYoutubeUrl url
      · simp [he, hy]
      · cases hq : env.req with
        | httpOk size =>
          by_cases hs : size = 0 <;> simp [he, hy, hq, hs]
        | requestError => simp [he, hy, hq]
    · simp [he]
  · simp

/-- C10: the claim says exactly one failure-counter increment occurs per
failed row, so the success, skipped, and failed counts sum to the rows
considered.  On the invalid-time path (here a reversed frame range) the
counter is incremented twice for the single failed row — once at
src/download_and_cut.py line 453 and again at line 471 — so one considered
row contributes 2 to the sum. -/
theorem C10_double_failure_increment :
    (processRow rowBadOrder envCutFails).records = [.FAILED_CUT] ∧
    (processRow rowBadOrder envCutFails).failInc = 2 ∧
    (processRow rowBadOrder envCutFails).succInc +
      (processRow rowBadOrder envCutFails).skipInc +
      (processRow rowBadOrder envCutFails).failInc = 2 := by
  have hord : end_time_sec 30 30 <
      start_time_sec (rowBadOrder.dataset_type.getD "") 90 30 := by
    simp only [rowBadOrder, Option.getD_some]
    rw [stime_MSASL]
    unfold end_time_sec
    push_cast
    norm_num
  have heval : processRow rowBadOrder envCutFails =
      ⟨[.FAILED_CUT], 0, 0, 2,
        [.ytdlpCall, .fileDelete "videos/7_temp.mp4"], []⟩ := by
    rw [processRow_cut_eval rowBadOrder envCutFails 7 90 30 30 sampleUrl
      sampleUrl "videos/7_temp.mp4" [.ytdlpCall] [("videos/7_temp.mp4", 100)]
      rfl rfl rfl rfl (by norm_num) rfl (by decide) (by decide) (by decide)
      (by decide) (by decide)]
    rw [if_pos (Or.inr hord)]
    rfl
  rw [heval]
  exact ⟨rfl, rfl, rfl⟩

end SLT
